import Mathlib

/-!
Verification of the picsou portfolio tracker against its specification.

Shallow embedding of:
- `src/build_saisir.py` (daily reconstruction engine),
- `src/backfill_prices_daily.py` (incremental price backfill controller),
- `tools/sync_excel_saisir.py` (sync/upsert layer, null handling).

Calendar days are modelled as natural numbers (day index on the local
calendar); monetary amounts and quantities are exact rationals (the Python
code uses floats; none of the verified properties depends on rounding).
A pandas `NaN` / SQL `NULL` is modelled as `none : Option ℚ`.
-/

namespace Picsou

/-- A row of the `transactions` table as loaded by `_load_transactions`:
`date_local` (a calendar day in Europe/Paris, here a day number), lowercased
symbol, signed quantity, unit price and fee in EUR.  `_load_transactions`
coerces `qty`, `price_eur`, `fee_eur` with `fillna(0.0)`, so they are plain
rationals here. -/
structure Tx where
  symbol : String
  day : Nat
  qty : ℚ
  price_eur : ℚ
  fee_eur : ℚ
deriving Repr, DecidableEq

/-- A row of the `price_snapshot` table as loaded by `_load_prices`:
lowercased symbol, the local calendar day of the snapshot, `seq` the
wall-clock order of the snapshot within its day (the `ts` order), and the
price, `none` when the numeric coercion produced NaN (`errors="coerce"`). -/
structure PricePoint where
  symbol : String
  day : Nat
  seq : Nat
  price_eur : Option ℚ
deriving Repr, DecidableEq

/-! ### Price densification (`_build_frames`, price part)

The code sorts price rows by (symbol, date_local, ts), drops NaN prices,
keeps the last snapshot of each (symbol, day), reindexes each symbol's
series onto the calendar grid, then applies `ffill` and `bfill`. -/

/-- `pr.sort_values(...).dropna(subset=["price_eur"]).groupby(["symbol","date_local"])["price_eur"].last()`
evaluated at one (symbol, day): the price of the snapshot with the greatest
`seq` (latest `ts`) among that day's non-NaN snapshots; ties keep the later
occurrence, as a stable sort followed by `.last()` does. -/
def lastSnapshotOfDay (pts : List PricePoint) (c : String) (d : Nat) : Option ℚ :=
  ((pts.filter (fun p => p.symbol == c && p.day == d && p.price_eur.isSome)).foldl
    (fun acc p =>
      match acc with
      | none => some (p.seq, p.price_eur)
      | some (s, _) => if s ≤ p.seq then some (p.seq, p.price_eur) else acc)
    none).bind (·.2)

/-- `Series.ffill()`: replace each missing entry by the last preceding
present entry (`carry`), if any. -/
def ffillFrom : Option ℚ → List (Option ℚ) → List (Option ℚ)
  | _, [] => []
  | carry, x :: xs =>
    match x with
    | some v => some v :: ffillFrom (some v) xs
    | none => carry :: ffillFrom carry xs

/-- `Series.ffill()` from an empty past. -/
def ffill (l : List (Option ℚ)) : List (Option ℚ) := ffillFrom none l

/-- `Series.bfill()`: replace each missing entry by the next following
present entry, if any; a forward fill run backwards. -/
def bfill (l : List (Option ℚ)) : List (Option ℚ) := (ffill l.reverse).reverse

/-- The resolved daily price series of one symbol on the calendar grid
`g0, g0+1, …, g0+n-1`: last snapshot per day, reindexed onto the grid,
forward-filled then backward-filled (`_build_frames` lines building
`price_series`).  An entry `none` is a NaN that survived both fills
(no snapshot at all for the symbol). -/
def priceSeries (pts : List PricePoint) (c : String) (g0 n : Nat) : List (Option ℚ) :=
  bfill (ffill ((List.range n).map (fun i => lastSnapshotOfDay pts c (g0 + i))))

/-- The resolved price of day index `i` of the grid. -/
def priceAt (pts : List PricePoint) (c : String) (g0 n i : Nat) : Option ℚ :=
  (priceSeries pts c g0 n).getD i none

/-! ### Daily aggregates (`_build_frames`, transaction part) -/

/-- `tx_c["buy_eur"] = tx_c["qty"].clip(lower=0) * tx_c["price_eur"] + tx_c["fee_eur"]`:
one transaction's contribution to the day's deployed capital. -/
def buyEurTx (t : Tx) : ℚ := max t.qty 0 * t.price_eur + t.fee_eur

/-- `tx_c.groupby("date_local")["buy_eur"].sum()` at one day, after
`reindex(days).fillna(0.0)`: days without transactions give 0. -/
def buyEurOn (txs : List Tx) (c : String) (d : Nat) : ℚ :=
  ((txs.filter (fun t => t.symbol == c && t.day == d)).map buyEurTx).sum

/-- `buy_eur_cum[c] = s_buy.cumsum()` at grid index `i`: running sum of the
daily deployed capital over grid days `g0 … g0+i`. -/
def buyEurCum (txs : List Tx) (c : String) (g0 i : Nat) : ℚ :=
  ((List.range (i + 1)).map (fun j => buyEurOn txs c (g0 + j))).sum

/-- `tx_c.groupby("date_local")["qty"].sum()` at one day, reindexed with
`fillna(0.0)`. -/
def qtyOn (txs : List Tx) (c : String) (d : Nat) : ℚ :=
  ((txs.filter (fun t => t.symbol == c && t.day == d)).map (·.qty)).sum

/-- `qty_cum[c]` at grid index `i`: running sum of signed daily quantities. -/
def qtyCum (txs : List Tx) (c : String) (g0 i : Nat) : ℚ :=
  ((List.range (i + 1)).map (fun j => qtyOn txs c (g0 + j))).sum

/-! ### Output columns (`build_saisir`) -/

/-- `val = qty_cum[c].fillna(0.0) * price[c].fillna(0.0); val = val.fillna(0.0)`:
the `"<c> valeur"` column.  `qtyCum` is never NaN in the code (its inputs
are `fillna(0.0)`-coerced), so only the price needs the NaN-to-0 fallback. -/
def valeurCol (txs : List Tx) (pts : List PricePoint) (c : String) (g0 n i : Nat) : ℚ :=
  qtyCum txs c g0 i * (priceAt pts c g0 n i).getD 0

/-- `out[f"{c} acheté"] = buy_eur[c]`. -/
def acheteCol (txs : List Tx) (c : String) (g0 i : Nat) : ℚ := buyEurOn txs c (g0 + i)

/-- `out[f"{c} acheté cumul"] = buy_eur_cum[c]`. -/
def acheteCumulCol (txs : List Tx) (c : String) (g0 i : Nat) : ℚ := buyEurCum txs c g0 i

/-- `out[f"{c} valeur cumul"] = val` — the same expression as `"<c> valeur"`. -/
def valeurCumulCol (txs : List Tx) (pts : List PricePoint) (c : String) (g0 n i : Nat) : ℚ :=
  qtyCum txs c g0 i * (priceAt pts c g0 n i).getD 0

/-- `gain = val - buy_eur_cum[c]`: the `"<c> gain perte"` column. -/
def gainPerteCol (txs : List Tx) (pts : List PricePoint) (c : String) (g0 n i : Nat) : ℚ :=
  valeurCol txs pts c g0 n i - buyEurCum txs c g0 i

/-- `out[f"acheté {u}"] = out[f"{c} acheté cumul"]`: the tail block column. -/
def acheteBlocCol (txs : List Tx) (c : String) (g0 i : Nat) : ℚ := acheteCumulCol txs c g0 i

/-- `out[f"Valeur {u}"] = out[f"{c} valeur cumul"]`: the tail block column. -/
def valeurBlocCol (txs : List Tx) (pts : List PricePoint) (c : String) (g0 n i : Nat) : ℚ :=
  valeurCumulCol txs pts c g0 n i

/-- `out["total acheté"] = out[[f"acheté {c.upper()}" for c in coins]].sum(axis=1)`. -/
def totalAchete (coins : List String) (txs : List Tx) (g0 i : Nat) : ℚ :=
  (coins.map (fun c => acheteBlocCol txs c g0 i)).sum

/-- `out["total valeur"] = out[[f"Valeur {c.upper()}" for c in coins]].sum(axis=1)`. -/
def totalValeur (coins : List String) (txs : List Tx) (pts : List PricePoint)
    (g0 n i : Nat) : ℚ :=
  (coins.map (fun c => valeurBlocCol txs pts c g0 n i)).sum

/-- `out["total gain perte"] = out["total valeur"] - out["total acheté"]`. -/
def totalGainPerte (coins : List String) (txs : List Tx) (pts : List PricePoint)
    (g0 n i : Nat) : ℚ :=
  totalValeur coins txs pts g0 n i - totalAchete coins txs g0 i

/-! ### Assembled output (`build_saisir`) -/

/-- The errors `build_saisir` can signal.  `noData` is the
`RuntimeError("Aucune transaction en base …")` raised by `_build_frames`
when the `transactions` table is empty — the spec's `NoDataError`. -/
inductive BuildError where
  | noData
deriving Repr, DecidableEq

/-- `start_day = tx["date_local"].min()`: the earliest local transaction day
of a non-empty ledger `t :: ts`. -/
def startDay (t : Tx) (ts : List Tx) : Nat := (ts.map (·.day)).foldl min t.day

/-- Number of days of `pd.date_range(start=g0, end=today, freq="D")`
(empty when `today < g0`). -/
def gridLen (g0 today : Nat) : Nat := today + 1 - g0

/-- One output row of the "Saisir" sheet: the per-coin column groups, the
tail blocks and the totals, as assembled by `build_saisir`. -/
structure Row where
  achete : String → ℚ
  valeur : String → ℚ
  gainPerte : String → ℚ
  acheteCumul : String → ℚ
  valeurCumul : String → ℚ
  acheteBloc : String → ℚ
  valeurBloc : String → ℚ
  totAchete : ℚ
  totValeur : ℚ
  totGainPerte : ℚ

/-- The row of grid index `i` as `build_saisir` fills it in. -/
def mkRow (coins : List String) (txs : List Tx) (pts : List PricePoint)
    (g0 n i : Nat) : Row where
  achete := fun c => acheteCol txs c g0 i
  valeur := fun c => valeurCol txs pts c g0 n i
  gainPerte := fun c => gainPerteCol txs pts c g0 n i
  acheteCumul := fun c => acheteCumulCol txs c g0 i
  valeurCumul := fun c => valeurCumulCol txs pts c g0 n i
  acheteBloc := fun c => acheteBlocCol txs c g0 i
  valeurBloc := fun c => valeurBlocCol txs pts c g0 n i
  totAchete := totalAchete coins txs g0 i
  totValeur := totalValeur coins txs pts g0 n i
  totGainPerte := totalGainPerte coins txs pts g0 n i

/-- `build_saisir(coins)`: raises (`Except.error .noData`) on an empty
ledger, otherwise builds one row per day of the calendar grid from the
earliest transaction day to `today`. -/
def build_saisir (coins : List String) (txs : List Tx) (pts : List PricePoint)
    (today : Nat) : Except BuildError (List Row) :=
  match txs with
  | [] => .error .noData
  | t :: ts =>
    let g0 := startDay t ts
    let n := gridLen g0 today
    .ok ((List.range n).map (fun i => mkRow coins (t :: ts) pts g0 n i))

/-! ### Incremental price backfill controller (`backfill_prices_daily.main`)

The loop body is modelled as a trace of observable actions per symbol; the
remote call's outcome is a parameter (the network is external). -/

/-- Outcome of `_fetch_market_chart_daily` for one symbol: a list of
day-deduplicated `(utc day, price)` pairs, an `requests.HTTPError` with a
status code, or any other exception. -/
inductive FetchOutcome where
  | ok (points : List (Nat × ℚ))
  | httpError (status : Nat)
  | exc
deriving Repr, DecidableEq

/-- Observable actions of the backfill loop: a remote range request
(`_fetch_market_chart_daily`), a Price Store write (`_upsert_many`), the
fixed inter-request pause (`time.sleep(1.2)`), the fixed longer backoff
after a 429 (`time.sleep(10)`), and the "Skip …: déjà complet" log line. -/
inductive Action where
  | fetch (coinId : String) (fromDay toDayExcl : Nat)
  | upsert (symbol : String) (points : List (Nat × ℚ))
  | sleepShort
  | backoff429
  | logSkip (symbol : String)
deriving Repr, DecidableEq

/-- Is the action a remote request? -/
def Action.isRemoteRequest : Action → Bool
  | .fetch _ _ _ => true
  | _ => false

/-- Is the action a Price Store write? -/
def Action.isStoreWrite : Action → Bool
  | .upsert _ _ => true
  | _ => false

/-- `_all_days_utc(start, end)`: the UTC calendar days from `start` to
`endd`, both included. -/
def allDaysUtc (start endd : Nat) : List Nat :=
  (List.range (endd + 1 - start)).map (start + ·)

/-- `missing = sorted(all_days.difference(existing))`, where `existing s` is
the Price Store's day set for symbol `s` (`_get_existing_days`); filtering
the increasing day range keeps it sorted. -/
def missingDays (existing : String → List Nat) (start endd : Nat) (s : String) :
    List Nat :=
  (allDaysUtc start endd).filter (fun d => !((existing s).contains d))

/-- One iteration of the `for s in syms` loop of `main`: skip unmapped
symbols, skip complete symbols without any remote call, otherwise issue one
range request over `[min(missing), max(missing)+1)` and react to its
outcome — on success filter to the missing days, upsert and pause; on HTTP
429 back off once and continue; on any other error just continue. -/
def processSymbol (symToId : String → Option String) (existing : String → List Nat)
    (fetchResult : String → FetchOutcome) (start endd : Nat) (s : String) :
    List Action :=
  match symToId s with
  | none => []
  | some cid =>
    match missingDays existing start endd s with
    | [] => [.logSkip s]
    | m :: ms =>
      let fromDay := m
      let toDayExcl := ms.getLastD m + 1
      match fetchResult s with
      | .ok pts =>
          let kept := pts.filter (fun p => (m :: ms).contains p.1)
          [.fetch cid fromDay toDayExcl, .upsert s kept, .sleepShort]
      | .httpError st =>
          if st == 429 then [.fetch cid fromDay toDayExcl, .backoff429]
          else [.fetch cid fromDay toDayExcl]
      | .exc => [.fetch cid fromDay toDayExcl]

/-- The whole backfill run over the symbol list: the concatenation of the
per-symbol traces (every exception inside the loop body is caught, so each
symbol is processed whatever happened to the previous ones). -/
def backfillMain (symToId : String → Option String) (existing : String → List Nat)
    (fetchResult : String → FetchOutcome) (start endd : Nat)
    (syms : List String) : List Action :=
  (syms.map (processSymbol symToId existing fetchResult start endd)).flatten

/-! ### Sync/upsert layer (`tools/sync_excel_saisir.py`)

A cell of the persisted wide table is `Option ℚ`: `none` models SQL `NULL`
(a Python `None` or a float NaN bound to the column). -/

/-- The MSSQL column types `infer_types` assigns: `DATE`, `DECIMAL(20,2)`
(numeric) or `NVARCHAR(255)`. -/
inductive ColType where
  | date
  | decimal
  | nvarchar
deriving Repr, DecidableEq

/-- `_to_db` in `upsert_rows`: a `None`/NaN value bound to a numeric
(`DECIMAL(20,2)`) column becomes 0; for other columns it stays null;
present values pass through. -/
def toDb (ty : ColType) (v : Option ℚ) : Option ℚ :=
  match ty, v with
  | .decimal, none => some 0
  | _, v => v

/-- `cleanup_nulls_numeric`: for every numeric column run
`UPDATE … SET [col] = 0 WHERE [col] IS NULL`; other columns untouched.
The table is `column name → day key → cell`. -/
def cleanup_nulls_numeric (types : String → ColType)
    (table : String → Nat → Option ℚ) : String → Nat → Option ℚ :=
  fun c r => if types c = ColType.decimal then some ((table c r).getD 0) else table c r

/-! ### Concrete scenario data (spec §8)

Ledger = {day 1: buy 2 BTC @ 100, fee 1}, {day 5: sell 1 BTC @ 150, fee 1};
prices = {day 1: 100, day 5: 150}.  Days are numbered from 0, so day 1 is
day index 0 and day 5 is day index 4; the grid has 5 days. -/

/-- The scenario ledger. -/
def txsScenario : List Tx :=
  [⟨"btc", 0, 2, 100, 1⟩, ⟨"btc", 4, -1, 150, 1⟩]

/-- The scenario price snapshots. -/
def ptsScenario : List PricePoint :=
  [⟨"btc", 0, 0, some 100⟩, ⟨"btc", 4, 0, some 150⟩]

/-! ## Theorems -/

/-- C1 (counterexample): on the spec's own scenario the reconstructed day-5
row does not have `bought_cum = 201` and `gain_loss = -51`: a sell's fee is
added to the day's deployed capital (`clip(lower=0) * price + fee`), so the
code yields 202 and -52. -/
theorem scenario_day5_not_as_claimed :
    acheteCumulCol txsScenario "btc" 0 4 ≠ 201
    ∧ gainPerteCol txsScenario ptsScenario "btc" 0 5 4 ≠ -51 := by
  constructor <;>
    norm_num [acheteCumulCol, gainPerteCol, valeurCol, buyEurCum, buyEurOn, buyEurTx,
      qtyCum, qtyOn, priceAt, priceSeries, lastSnapshotOfDay, ffill, ffillFrom, bfill,
      txsScenario, ptsScenario, List.range_succ, max_def]

/-- C1 (amended): a transaction with non-positive signed quantity (a sell)
contributes exactly its fee to the day's per-asset capital-deployed figure
(its notional is clamped to zero but its fee is kept); consequently, on the
ledger {day1: buy 2 BTC @ 100, fee 1}, {day5: sell 1 BTC @ 150, fee 1} with
prices {day1: 100, day5: 150}, the reconstructed day-5 row has
`qty_cum = 1`, `bought_cum = 202`, `value = 150`, `gain_loss = -52`. -/
theorem sell_contributes_fee_scenario :
    (∀ t : Tx, t.qty ≤ 0 → buyEurTx t = t.fee_eur)
    ∧ qtyCum txsScenario "btc" 0 4 = 1
    ∧ acheteCumulCol txsScenario "btc" 0 4 = 202
    ∧ valeurCol txsScenario ptsScenario "btc" 0 5 4 = 150
    ∧ gainPerteCol txsScenario ptsScenario "btc" 0 5 4 = -52 := by
  refine ⟨fun t ht => ?_, ?_, ?_, ?_, ?_⟩
  · simp [buyEurTx, max_eq_right ht]
  all_goals
    norm_num [acheteCumulCol, gainPerteCol, valeurCol, buyEurCum, buyEurOn, buyEurTx,
      qtyCum, qtyOn, priceAt, priceSeries, lastSnapshotOfDay, ffill, ffillFrom, bfill,
      txsScenario, ptsScenario, List.range_succ, max_def]

/-- C1 (witness for the amended theorem): the scenario's day-5 sell
(qty −1, fee 1) contributes exactly 1 EUR. -/
theorem sell_contributes_fee_scenario_witness :
    buyEurTx ⟨"btc", 4, -1, 150, 1⟩ = 1 :=
  sell_contributes_fee_scenario.1 ⟨"btc", 4, -1, 150, 1⟩ (by norm_num)

/-- C2: whenever the cumulative held quantity of a day is zero, the
reconstructed value of that day is exactly zero, for every price store
content — including one where the resolved price is NaN. -/
theorem zero_holding_value_zero (txs : List Tx) (pts : List PricePoint)
    (c : String) (g0 n i : Nat) (h : qtyCum txs c g0 i = 0) :
    valeurCol txs pts c g0 n i = 0 := by
  unfold valeurCol
  rw [h, zero_mul]

/-- C2 (witness): a buy followed by a full sell, with an empty price store
(resolved price NaN on every day), still values day 2 at exactly 0. -/
theorem zero_holding_value_zero_witness :
    valeurCol [⟨"btc", 0, 1, 10, 0⟩, ⟨"btc", 1, -1, 12, 0⟩] [] "btc" 0 2 1 = 0 :=
  zero_holding_value_zero [⟨"btc", 0, 1, 10, 0⟩, ⟨"btc", 1, -1, 12, 0⟩] [] "btc" 0 2 1
    (by norm_num [qtyCum, qtyOn, List.range_succ])

/-- C3: on a ledger whose unit prices and fees are non-negative amounts (the
data model's domain), the cumulative invested capital is monotone along the
calendar grid: `bought_cum[i] ≤ bought_cum[i+1]`; in particular sells never
decrease it, since their clamped notional contributes non-negatively. -/
theorem bought_cum_monotone (txs : List Tx) (c : String) (g0 i : Nat)
    (hnn : ∀ t ∈ txs, 0 ≤ t.price_eur ∧ 0 ≤ t.fee_eur) :
    acheteCumulCol txs c g0 i ≤ acheteCumulCol txs c g0 (i + 1) := by
  unfold acheteCumulCol buyEurCum
  have hsplit : List.range (i + 1 + 1) = List.range (i + 1) ++ [i + 1] :=
    List.range_succ (i + 1)
  rw [hsplit, List.map_append, List.sum_append]
  refine le_add_of_nonneg_right ?_
  simp only [List.map_cons, List.map_nil, List.sum_cons, List.sum_nil, add_zero]
  unfold buyEurOn
  refine List.sum_nonneg fun x hx => ?_
  obtain ⟨t, ht, rfl⟩ := List.mem_map.mp hx
  have htx : t ∈ txs := (List.mem_filter.mp ht).1
  have h1 : 0 ≤ max t.qty 0 := le_max_right _ _
  exact add_nonneg (mul_nonneg h1 (hnn t htx).1) (hnn t htx).2

/-- C3 (witness): on the scenario ledger (non-negative prices and fees),
day 1's cumulative bought is at most day 2's. -/
theorem bought_cum_monotone_witness :
    acheteCumulCol txsScenario "btc" 0 0 ≤ acheteCumulCol txsScenario "btc" 0 1 :=
  bought_cum_monotone txsScenario "btc" 0 0
    (by intro t ht; fin_cases ht <;> norm_num)

/-- C4: price densification; with snapshots observed only on day 1 and
day 11 of an 11-day calendar grid, the resolved series (last point per day,
reindexed onto the grid, forward-filled then backward-filled) carries the
day-1 price through days 2–10 and uses the day-11 price on day 11, for any
two observed prices. -/
theorem price_densification_gap_fill (p1 p11 : ℚ) :
    priceSeries [⟨"btc", 0, 0, some p1⟩, ⟨"btc", 10, 0, some p11⟩] "btc" 0 11
      = [some p1, some p1, some p1, some p1, some p1, some p1, some p1,
         some p1, some p1, some p1, some p11] := rfl

/-- C5: for every day of the grid, the total value column is the sum of the
per-asset values over the configured coin set, the total bought column is
the sum of the per-asset cumulative boughts, and the total gain/loss column
is their difference. -/
theorem totals_consistency (coins : List String) (txs : List Tx)
    (pts : List PricePoint) (g0 n i : Nat) :
    totalValeur coins txs pts g0 n i
        = (coins.map (fun c => valeurCol txs pts c g0 n i)).sum
    ∧ totalAchete coins txs g0 i
        = (coins.map (fun c => acheteCumulCol txs c g0 i)).sum
    ∧ totalGainPerte coins txs pts g0 n i
        = totalValeur coins txs pts g0 n i - totalAchete coins txs g0 i :=
  ⟨rfl, rfl, rfl⟩

/-- C6: `build_saisir` on an empty ledger fails with the no-data error and
produces no rows; on any ledger with at least one transaction it does not
fail for this reason. -/
theorem empty_ledger_no_data (coins : List String) (pts : List PricePoint)
    (today : Nat) :
    build_saisir coins [] pts today = Except.error BuildError.noData
    ∧ ∀ (t : Tx) (ts : List Tx), ∃ rows,
        build_saisir coins (t :: ts) pts today = Except.ok rows :=
  ⟨rfl, fun _ _ => ⟨_, rfl⟩⟩

/-- C7: if the Price Store already holds a point for every calendar day of
the range for a symbol, the backfill loop issues no remote request and
writes nothing to the store for that symbol. -/
theorem backfill_minimality (symToId : String → Option String)
    (existing : String → List Nat) (fetchResult : String → FetchOutcome)
    (start endd : Nat) (s : String)
    (hfull : ∀ d ∈ allDaysUtc start endd, d ∈ existing s) :
    (processSymbol symToId existing fetchResult start endd s).all
      (fun a => !a.isRemoteRequest && !a.isStoreWrite) = true := by
  have hm : missingDays existing start endd s = [] := by
    refine List.filter_eq_nil_iff.mpr fun d hd => ?_
    simpa using hfull d hd
  unfold processSymbol
  cases symToId s with
  | none => rfl
  | some cid => rw [hm]; rfl

/-- C7 (witness): with days 0 and 1 in range and both present in the store,
the trace for the symbol holds no remote request and no write. -/
theorem backfill_minimality_witness :
    (processSymbol (fun _ => some "bitcoin") (fun _ => [0, 1]) (fun _ => FetchOutcome.exc)
        0 1 "btc").all (fun a => !a.isRemoteRequest && !a.isStoreWrite) = true :=
  backfill_minimality (fun _ => some "bitcoin") (fun _ => [0, 1])
    (fun _ => FetchOutcome.exc) 0 1 "btc" (by decide)

/-- C8: a remote failure on one symbol never aborts the batch — the whole
run's trace is the concatenation of the per-symbol traces, whatever each
fetch's outcome; on an HTTP 429 the symbol's trace is exactly one range
request followed by the single longer backoff (no retry of the same symbol
in the run); on any other HTTP error or exception it is exactly the one
range request, after which the loop moves to the next symbol. -/
theorem backfill_error_isolation (symToId : String → Option String)
    (existing : String → List Nat) (fetchResult : String → FetchOutcome)
    (start endd : Nat) (xs ys : List String) (s cid : String)
    (m : Nat) (ms : List Nat)
    (hcid : symToId s = some cid)
    (hmiss : missingDays existing start endd s = m :: ms) :
    backfillMain symToId existing fetchResult start endd (xs ++ s :: ys)
        = backfillMain symToId existing fetchResult start endd xs
          ++ processSymbol symToId existing fetchResult start endd s
          ++ backfillMain symToId existing fetchResult start endd ys
    ∧ (fetchResult s = FetchOutcome.httpError 429 →
        processSymbol symToId existing fetchResult start endd s
          = [Action.fetch cid m (ms.getLastD m + 1), Action.backoff429])
    ∧ (∀ st, fetchResult s = FetchOutcome.httpError st → st ≠ 429 →
        processSymbol symToId existing fetchResult start endd s
          = [Action.fetch cid m (ms.getLastD m + 1)])
    ∧ (fetchResult s = FetchOutcome.exc →
        processSymbol symToId existing fetchResult start endd s
          = [Action.fetch cid m (ms.getLastD m + 1)]) := by
  refine ⟨?_, ?_, ?_, ?_⟩
  · simp [backfillMain, List.map_append, List.flatten_append]
  · intro h429
    simp [processSymbol, hcid, hmiss, h429]
  · intro st hst hne
    have : (st == 429) = false := by simpa using hne
    simp [processSymbol, hcid, hmiss, hst, this]
  · intro hexc
    simp [processSymbol, hcid, hmiss, hexc]

/-- C8 (witness): one symbol, day 0 missing, remote answers 429 — the trace
is the single fetch followed by the single backoff. -/
theorem backfill_error_isolation_witness :
    processSymbol (fun _ => some "bitcoin") (fun _ => [])
        (fun _ => FetchOutcome.httpError 429) 0 0 "btc"
      = [Action.fetch "bitcoin" 0 1, Action.backoff429] :=
  (backfill_error_isolation (fun _ => some "bitcoin") (fun _ => [])
      (fun _ => FetchOutcome.httpError 429) 0 0 [] [] "btc" "bitcoin" 0 []
      rfl (by decide)).2.1 rfl

/-- C9: numeric (DECIMAL) columns never keep a null: at upsert time a
null/NaN bound to a numeric column is coerced to 0 (and the stored cell is
always present), the post-sync sweep rewrites a remaining null to 0, and
the sweep is idempotent — a second run changes nothing. -/
theorem sync_numeric_never_null (types : String → ColType)
    (table : String → Nat → Option ℚ) (c : String) (r : Nat) (v : Option ℚ)
    (hnum : types c = ColType.decimal) :
    (toDb (types c) v).isSome = true
    ∧ (v = none → toDb (types c) v = some 0)
    ∧ (table c r = none → cleanup_nulls_numeric types table c r = some 0)
    ∧ cleanup_nulls_numeric types (cleanup_nulls_numeric types table) c r
        = cleanup_nulls_numeric types table c r := by
  rw [hnum]
  refine ⟨?_, ?_, ?_, ?_⟩
  · cases v <;> rfl
  · rintro rfl; rfl
  · intro h; simp [cleanup_nulls_numeric, hnum, h]
  · simp [cleanup_nulls_numeric, hnum]

/-- C9 (witness): a NaN/None cell bound to a DECIMAL column is stored as 0. -/
theorem sync_numeric_never_null_witness :
    toDb ColType.decimal none = some 0 :=
  (sync_numeric_never_null (fun _ => ColType.decimal) (fun _ _ => none) "x" 0 none
      rfl).2.1 rfl

/-- C10: for every coin and every day, the columns `<c> valeur`,
`<c> valeur cumul` and `Valeur <C>` are the same series — and the
"cumulative" label is not a running sum of the daily value column, as the
scenario's day 2 shows (level 200 versus running sum 400). -/
theorem valeur_columns_identical :
    (∀ (txs : List Tx) (pts : List PricePoint) (c : String) (g0 n i : Nat),
        valeurCol txs pts c g0 n i = valeurCumulCol txs pts c g0 n i
        ∧ valeurCumulCol txs pts c g0 n i = valeurBlocCol txs pts c g0 n i)
    ∧ valeurCumulCol txsScenario ptsScenario "btc" 0 5 1
        ≠ ((List.range 2).map
            (fun j => valeurCol txsScenario ptsScenario "btc" 0 5 j)).sum :=
  ⟨fun _ _ _ _ _ _ => ⟨rfl, rfl⟩, by
    norm_num [valeurCumulCol, valeurCol, qtyCum, qtyOn, priceAt, priceSeries,
      lastSnapshotOfDay, ffill, ffillFrom, bfill, txsScenario, ptsScenario,
      List.range_succ, max_def]⟩

end Picsou
